import Mathlib

/-!
Shallow embedding of the core of `vehicles/views.py` from the C2S-Motors
repository: the natural-language filter extractor (`parse_filters`), the
query translator (`query_from_filters`) with the result-relaxation policy
of the chat view, the aggregation summarizer (`summarize_queryset`), the
deterministic fallback reply generator (`fallback_reply`), the follow-up
suggestion generator (`build_suggestions`) and the grounded-response
orchestration of `vehicle_chat_view`.

Modelling conventions:
* Python strings are modelled as `List Char` while scanning and as
  `String` in record fields.
* `unicodedata.normalize("NFKD", txt).encode("ascii", "ignore").lower()`
  is modelled character-wise for the Latin-1 repertoire this application
  uses; unmapped non-ASCII characters are dropped, exactly as the
  ascii/ignore encoding drops them.
* Every Python `float` arising in this code is produced by `float(raw)`
  on a string of decimal digits and is therefore integer-valued; it is
  modelled exactly by `Nat`/`ℚ` (exact in CPython below 2^53; all values
  reachable in the claims are far below that bound).
* `Decimal` prices (`DecimalField(max_digits=12, decimal_places=2)`) are
  modelled as an integer number of cents; monetary filter values as `ℚ`.
* Regular-expression searches are modelled position by position
  (`re.search` returns the leftmost position where the whole pattern
  matches, trying alternatives left to right).  Greediness of `\s*`,
  `R?`, `\$?` and the bracket classes is resolved statically: the
  character classes of adjacent regex pieces are disjoint, so the greedy
  parse is the unique successful one and the model needs no backtracking.
* The database is modelled as a `List Vehicle`; Django's
  `order_by("-created_at")` is modelled as a stable descending sort on
  the creation timestamp (SQL leaves the order of ties unspecified; the
  model fixes the stable choice).
-/

namespace C2SMotors

/-- ASCII-only lower casing, as `str.lower` acts on the ASCII range
(the input of every use site is already ASCII-only). -/
def asciiLower (c : Char) : Char :=
  if 'A' ≤ c ∧ c ≤ 'Z' then Char.ofNat (c.toNat + 32) else c

/-- Case-insensitive character comparison (models `re.IGNORECASE` on the
ASCII range; all searched texts are normalized, hence ASCII). -/
def chEqI (a b : Char) : Bool :=
  asciiLower a == asciiLower b

/-- Python's `\s` / `str.strip` whitespace on the ASCII range. -/
def isSpacePy (c : Char) : Bool :=
  c == ' ' || c == '\t' || c == '\n' || c == '\r' || c.toNat == 11 || c.toNat == 12

/-- Python's `\w` word characters on the ASCII range. -/
def isWordCh (c : Char) : Bool :=
  c.isAlphanum || c == '_'

/-- The bracket class `[\d\.\,]` of `PRICE_PT_RE`'s capture group. -/
def isNumTok (c : Char) : Bool :=
  c.isDigit || c == '.' || c == ','

/-- The bracket class `[\.\d]` of `PRICE_NUM_RE`'s capture group. -/
def isDigitDot (c : Char) : Bool :=
  c.isDigit || c == '.'

/-- `str.strip()` restricted to ASCII whitespace. -/
def stripChars (l : List Char) : List Char :=
  ((l.dropWhile isSpacePy).reverse.dropWhile isSpacePy).reverse

/-- Match a literal pattern case-insensitively at the head of `l`,
returning the remainder after the pattern. -/
def prefixIRem : List Char → List Char → Option (List Char)
  | [], l => some l
  | _ :: _, [] => none
  | p :: ps, c :: cs => if chEqI p c then prefixIRem ps cs else none

/-- Does the literal pattern match case-insensitively at the head of `l`? -/
def prefixIB (pat l : List Char) : Bool :=
  (prefixIRem pat l).isSome

/-- Case-insensitive substring occurrence. -/
def occursI (pat : List Char) : List Char → Bool
  | [] => prefixIB pat []
  | c :: t => prefixIB pat (c :: t) || occursI pat t

/-- Exact substring occurrence: Python's `pat in s`. -/
def occursE (pat : List Char) : List Char → Bool
  | [] => pat.isEmpty
  | c :: t => pat.isPrefixOf (c :: t) || occursE pat t

/-- Value of a string of decimal digits (models `float(raw)`/`int(raw)`
on an all-digit string). -/
def digitsToNat (l : List Char) : Nat :=
  l.foldl (fun a c => a * 10 + (c.toNat - 48)) 0

/-- One character of the model of
`unicodedata.normalize("NFKD", ·).encode("ascii","ignore").lower()`:
ASCII characters are lower-cased, Latin-1 accented letters decompose to
their base letter (the combining mark is then dropped by the
ascii/ignore encoding), any other non-ASCII character is dropped. -/
def normChar (c : Char) : List Char :=
  if c.toNat < 128 then [asciiLower c] else
  match c with
  | 'á' | 'à' | 'â' | 'ã' | 'ä' | 'Á' | 'À' | 'Â' | 'Ã' | 'Ä' => ['a']
  | 'é' | 'è' | 'ê' | 'ë' | 'É' | 'È' | 'Ê' | 'Ë' => ['e']
  | 'í' | 'ì' | 'î' | 'ï' | 'Í' | 'Ì' | 'Î' | 'Ï' => ['i']
  | 'ó' | 'ò' | 'ô' | 'õ' | 'ö' | 'Ó' | 'Ò' | 'Ô' | 'Õ' | 'Ö' => ['o']
  | 'ú' | 'ù' | 'û' | 'ü' | 'Ú' | 'Ù' | 'Û' | 'Ü' => ['u']
  | 'ç' | 'Ç' => ['c']
  | 'ñ' | 'Ñ' => ['n']
  | _ => []

/-- Embeds `_normalize` of `vehicles/views.py`. -/
def normalize (l : List Char) : List Char :=
  (l.map normChar).flatten

/-- The part of `PRICE_PT_RE` after the trigger alternation:
`\s*R?\$?\s*([\d\.\,]+)`; returns the capture group.  `\s`, `R`, `$` and
the capture class are pairwise disjoint, so the greedy left-to-right scan
is the unique parse. -/
def priceTailAt (l : List Char) : Option (List Char) :=
  let l1 := l.dropWhile isSpacePy
  let l2 := match l1 with
    | c :: t => if chEqI c 'r' then t else l1
    | [] => l1
  let l3 := match l2 with
    | c :: t => if c == '$' then t else l2
    | [] => l2
  let l4 := l3.dropWhile isSpacePy
  let g := l4.takeWhile isNumTok
  if g.isEmpty then none else some g

/-- The `no\s+máximo` alternative of `PRICE_PT_RE`.  Note the literal
accented `á`: the pattern is retained verbatim from the source even
though the searched text has been accent-stripped by `_normalize`. -/
def noMaximoRem (l : List Char) : Option (List Char) :=
  match prefixIRem ['n', 'o'] l with
  | none => none
  | some l1 =>
    match l1 with
    | c :: t =>
      if isSpacePy c then prefixIRem ['m', 'á', 'x', 'i', 'm', 'o'] (t.dropWhile isSpacePy)
      else none
    | [] => none

/-- One trigger alternative of `PRICE_PT_RE` followed by its tail. -/
def tryTrig (pat l : List Char) : Option (List Char) :=
  match prefixIRem pat l with
  | some r => priceTailAt r
  | none => none

/-- `PRICE_PT_RE` attempted at one position, alternatives in source
order: `até`, `ate`, `<=`, `<`, `por`, `no\s+máximo`. -/
def pricePTAt (l : List Char) : Option (List Char) :=
  tryTrig ['a', 't', 'é'] l
  <|> tryTrig ['a', 't', 'e'] l
  <|> tryTrig ['<', '='] l
  <|> tryTrig ['<'] l
  <|> tryTrig ['p', 'o', 'r'] l
  <|> (match noMaximoRem l with | some r => priceTailAt r | none => none)

/-- `PRICE_PT_RE.search`: leftmost position with a full match. -/
def searchPricePT : List Char → Option (List Char)
  | [] => none
  | c :: t =>
    match pricePTAt (c :: t) with
    | some g => some g
    | none => searchPricePT t

/-- `PRICE_NUM_RE` = `(\d{2,3}[\.\d]{0,})\s*(?:mil)?` attempted at one
position; returns `(group 1, group 0)`.  A position matches exactly when
its first two characters are digits, and group 1 is then the maximal run
of digits and dots there (`\d{2,3}` greedy followed by greedy
`[\.\d]*`). -/
def priceNumAt : List Char → Option (List Char × List Char)
  | c1 :: c2 :: rest =>
    if c1.isDigit && c2.isDigit then
      let g1 := (c1 :: c2 :: rest).takeWhile isDigitDot
      let after := (c1 :: c2 :: rest).dropWhile isDigitDot
      let ws := after.takeWhile isSpacePy
      let after2 := after.dropWhile isSpacePy
      let mil := if prefixIB ['m', 'i', 'l'] after2 then after2.take 3 else []
      some (g1, g1 ++ ws ++ mil)
    else none
  | _ => none

/-- `PRICE_NUM_RE.search`. -/
def searchPriceNum : List Char → Option (List Char × List Char)
  | [] => none
  | c :: t =>
    match priceNumAt (c :: t) with
    | some r => some r
    | none => searchPriceNum t

/-- Embeds `_pt_money_to_decimal`.  Group 1 of `PRICE_NUM_RE` contains
only digits and dots, so after `replace(".", "").replace(",", ".")` the
string is a non-empty digit string: `float(raw)` always succeeds with
its integer value and the `except` branch is unreachable;
`Decimal(f"(val):.2f")` of that integer-valued float is the integer
itself. -/
def pt_money_to_decimal (txt : List Char) : Option ℚ :=
  let t := stripChars txt
  match searchPriceNum t with
  | none => none
  | some m =>
    let raw := (m.1.filter (fun c => !(c == '.'))).map (fun c => if c == ',' then '.' else c)
    let n : Nat := digitsToNat raw
    some (if n < 1000 then ((n * 1000 : Nat) : ℚ) else (n : ℚ))

/-- `YEAR_MIN_RE` / `YEAR_RANGE_RE` year atom `((?:19|20)\d{2})`;
returns the year value and the remainder. -/
def yearAt : List Char → Option (Nat × List Char)
  | a :: b :: c :: d :: rest =>
    if ((a == '1' && b == '9') || (a == '2' && b == '0')) && c.isDigit && d.isDigit then
      some (digitsToNat [a, b, c, d], rest)
    else none
  | _ => none

/-- `YEAR_MIN_RE` = `(?:a partir de|>=|de)\s*((?:19|20)\d{2})` attempted
at one position, alternatives in source order. -/
def yearMinAt (l : List Char) : Option Nat :=
  (match prefixIRem "a partir de".toList l with
   | some r => (yearAt (r.dropWhile isSpacePy)).map Prod.fst
   | none => none)
  <|> (match prefixIRem ['>', '='] l with
   | some r => (yearAt (r.dropWhile isSpacePy)).map Prod.fst
   | none => none)
  <|> (match prefixIRem ['d', 'e'] l with
   | some r => (yearAt (r.dropWhile isSpacePy)).map Prod.fst
   | none => none)

/-- `YEAR_MIN_RE.search`. -/
def searchYearMin : List Char → Option Nat
  | [] => none
  | c :: t =>
    match yearMinAt (c :: t) with
    | some y => some y
    | none => searchYearMin t

/-- `YEAR_RANGE_RE` = `((?:19|20)\d{2})\s*-\s*((?:19|20)\d{2})`
attempted at one position. -/
def yearRangeAt (l : List Char) : Option (Nat × Nat) :=
  match yearAt l with
  | none => none
  | some (y1, r1) =>
    match r1.dropWhile isSpacePy with
    | '-' :: r2 => (yearAt (r2.dropWhile isSpacePy)).map (fun p => (y1, p.1))
    | _ => none

/-- `YEAR_RANGE_RE.search`. -/
def searchYearRange : List Char → Option (Nat × Nat)
  | [] => none
  | c :: t =>
    match yearRangeAt (c :: t) with
    | some p => some p
    | none => searchYearRange t

/-- `DOORS_RE` = `(\b2\b|\b4\b|\b5\b)\s*portas` attempted at one
position; `prev` is the character before the position (for `\b`). -/
def doorsAt (prev : Option Char) (l : List Char) : Option Nat :=
  match l with
  | [] => none
  | c :: rest =>
    let prevOk := match prev with
      | none => true
      | some p => !isWordCh p
    let nextOk := match rest with
      | [] => true
      | c2 :: _ => !isWordCh c2
    if (c == '2' || c == '4' || c == '5') && prevOk && nextOk
        && prefixIB ['p', 'o', 'r', 't', 'a', 's'] (rest.dropWhile isSpacePy) then
      some (c.toNat - 48)
    else none

/-- `DOORS_RE.search`. -/
def searchDoors (prev : Option Char) : List Char → Option Nat
  | [] => none
  | c :: t =>
    match doorsAt prev (c :: t) with
    | some d => some d
    | none => searchDoors (some c) t

/-- The `BODY_TYPES` synonym table, in source (insertion) order. -/
def BODY_TYPES : List (String × String) :=
  [("suv", "SUV"), ("hatch", "Hatch"), ("sedan", "Sedan"), ("picape", "Picape"),
   ("pickup", "Picape"), ("perua", "Perua"), ("wagon", "Perua"),
   ("coupe", "Coupé"), ("coupé", "Coupé")]

/-- The `TRANSMISSIONS` synonym table, in source order. -/
def TRANSMISSIONS : List (String × String) :=
  [("manual", "Manual"), ("automatica", "Automática"), ("automática", "Automática"),
   ("auto", "Automática"), ("cvt", "CVT")]

/-- The `FUELS` synonym table, in source order. -/
def FUELS : List (String × String) :=
  [("flex", "flex"), ("gasolina", "gasolina"), ("alcool", "alcool"),
   ("álcool", "alcool"), ("etanol", "alcool"), ("diesel", "diesel"),
   ("elétrico", "eletrico"), ("eletrico", "eletrico"),
   ("híbrido", "hibrido"), ("hibrido", "hibrido")]

/-- First table entry (in insertion order) whose key occurs as an exact
substring of the normalized message (`for k, v in table.items(): if k in
norm: ...; break`). -/
def firstHit (table : List (String × String)) (norm : List Char) : Option String :=
  (table.find? (fun kv => occursE kv.1.toList norm)).map (fun kv => kv.2)

/-- The price-extraction step of `parse_filters` (lines 177-190): the
`PRICE_PT_RE` match if any, otherwise the `"mil"`-guarded
`PRICE_NUM_RE` fallback on group 0; a parsed value is kept only when
truthy (`if val:`), so `Decimal("0.00")` is discarded. -/
def price_step (norm : List Char) : Option ℚ :=
  match searchPricePT norm with
  | some g =>
    match pt_money_to_decimal g with
    | some v => if v == 0 then none else some v
    | none => none
  | none =>
    if occursE ['m', 'i', 'l'] norm then
      match searchPriceNum norm with
      | some m =>
        match pt_money_to_decimal m.2 with
        | some v => if v == 0 then none else some v
        | none => none
      | none => none
    else none

/-- The fixed-shape FilterSet returned by `parse_filters`. -/
structure FilterSet where
  body_type : Option String
  transmission : Option String
  fuel : Option String
  price_max : Option ℚ
  year_min : Option Nat
  year_range : Option (Nat × Nat)
  doors : Option Nat
deriving Repr, DecidableEq

/-- Embeds `parse_filters` of `vehicles/views.py`. -/
def parse_filters (user_msg : String) : FilterSet :=
  let norm := normalize user_msg.toList
  { body_type := firstHit BODY_TYPES norm
    transmission := firstHit TRANSMISSIONS norm
    fuel := firstHit FUELS norm
    price_max := price_step norm
    year_min := searchYearMin norm
    year_range := (searchYearRange norm).map (fun p => (Nat.min p.1 p.2, Nat.max p.1 p.2))
    doors := searchDoors none norm }

/-- Heterogeneous value of one entry of the Python dict that
`parse_filters` returns. -/
inductive FilterValue where
  | null
  | str (s : String)
  | money (q : ℚ)
  | num (n : Nat)
  | range (a b : Nat)
deriving Repr, DecidableEq

def optStr : Option String → FilterValue
  | some s => .str s
  | none => .null

def optMoney : Option ℚ → FilterValue
  | some q => .money q
  | none => .null

def optNum : Option Nat → FilterValue
  | some n => .num n
  | none => .null

def optRange : Option (Nat × Nat) → FilterValue
  | some p => .range p.1 p.2
  | none => .null

/-- The dict literal built by `parse_filters`, key order as in the
source. -/
def filter_set_dict (f : FilterSet) : List (String × FilterValue) :=
  [("body_type", optStr f.body_type),
   ("transmission", optStr f.transmission),
   ("fuel", optStr f.fuel),
   ("price_max", optMoney f.price_max),
   ("year_min", optNum f.year_min),
   ("year_range", optRange f.year_range),
   ("doors", optNum f.doors)]

/-- An inventory record (`vehicles/models.py`, model `Vehicle`).  The
`DecimalField(max_digits=12, decimal_places=2)` price is modelled as an
integer number of cents; `created_at` is the creation timestamp used for
recency ordering. -/
structure Vehicle where
  brand : String
  model : String
  year : Nat
  engine : String
  fuel_type : String
  color : String
  mileage_km : Nat
  doors : Nat
  transmission : String
  body_type : String
  price_cents : Int
  vin : String
  created_at : Nat
deriving Repr, DecidableEq

/-- ASCII lower casing of a whole string. -/
def lowerStr (s : String) : String :=
  String.mk (s.toList.map asciiLower)

/-- Django's `iexact` lookup: case-insensitive exact match (folded on
the ASCII range, as SQLite's default casing functions fold). -/
def strIEq (a b : String) : Bool :=
  lowerStr a == lowerStr b

/-- The numeric value of a price stored as cents. -/
def ratOfCents (c : Int) : ℚ :=
  (c : ℚ) / 100

/-- The `if f["body_type"]: qs = qs.filter(body_type__iexact=...)` block.
Python truthiness: `None` and `""` are falsy and skip the filter. -/
def step_body (f : FilterSet) (qs : List Vehicle) : List Vehicle :=
  match f.body_type with
  | some s => if s.isEmpty then qs else qs.filter (fun v => strIEq v.body_type s)
  | none => qs

/-- The `transmission__iexact` block. -/
def step_trans (f : FilterSet) (qs : List Vehicle) : List Vehicle :=
  match f.transmission with
  | some s => if s.isEmpty then qs else qs.filter (fun v => strIEq v.transmission s)
  | none => qs

/-- The `fuel_type__iexact` block. -/
def step_fuel (f : FilterSet) (qs : List Vehicle) : List Vehicle :=
  match f.fuel with
  | some s => if s.isEmpty then qs else qs.filter (fun v => strIEq v.fuel_type s)
  | none => qs

/-- The `price__lte` block (`Decimal("0")` is falsy and skips it). -/
def step_price (f : FilterSet) (qs : List Vehicle) : List Vehicle :=
  match f.price_max with
  | some p => if p == 0 then qs else qs.filter (fun v => decide (ratOfCents v.price_cents ≤ p))
  | none => qs

/-- The `year__gte` block (`0` is falsy and skips it). -/
def step_ymin (f : FilterSet) (qs : List Vehicle) : List Vehicle :=
  match f.year_min with
  | some y => if y == 0 then qs else qs.filter (fun v => decide (y ≤ v.year))
  | none => qs

/-- The `year__gte=a, year__lte=b` block (a tuple is always truthy; one
filter call carries both bounds of the closed interval). -/
def step_yrange (f : FilterSet) (qs : List Vehicle) : List Vehicle :=
  match f.year_range with
  | some ab => qs.filter (fun v => decide (ab.1 ≤ v.year) && decide (v.year ≤ ab.2))
  | none => qs

/-- The `doors=` exact-match block (`0` is falsy and skips it). -/
def step_doors (f : FilterSet) (qs : List Vehicle) : List Vehicle :=
  match f.doors with
  | some d => if d == 0 then qs else qs.filter (fun v => v.doors == d)
  | none => qs

/-- Embeds `query_from_filters`: the seven truthiness-guarded filter
blocks applied in source order to `Vehicle.objects.all()`. -/
def query_from_filters (f : FilterSet) (objects : List Vehicle) : List Vehicle :=
  step_doors f (step_yrange f (step_ymin f (step_price f
    (step_fuel f (step_trans f (step_body f objects))))))

/-- The predicate contributed by the `body_type` dimension. -/
def preds_body (f : FilterSet) : List (Vehicle → Bool) :=
  match f.body_type with
  | some s => if s.isEmpty then [] else [fun v => strIEq v.body_type s]
  | none => []

/-- The predicate contributed by the `transmission` dimension. -/
def preds_trans (f : FilterSet) : List (Vehicle → Bool) :=
  match f.transmission with
  | some s => if s.isEmpty then [] else [fun v => strIEq v.transmission s]
  | none => []

/-- The predicate contributed by the `fuel` dimension. -/
def preds_fuel (f : FilterSet) : List (Vehicle → Bool) :=
  match f.fuel with
  | some s => if s.isEmpty then [] else [fun v => strIEq v.fuel_type s]
  | none => []

/-- The predicate contributed by the `price_max` dimension (`price__lte`). -/
def preds_price (f : FilterSet) : List (Vehicle → Bool) :=
  match f.price_max with
  | some p => if p == 0 then [] else [fun v => decide (ratOfCents v.price_cents ≤ p)]
  | none => []

/-- The predicate contributed by the `year_min` dimension (`year__gte`). -/
def preds_ymin (f : FilterSet) : List (Vehicle → Bool) :=
  match f.year_min with
  | some y => if y == 0 then [] else [fun v => decide (y ≤ v.year)]
  | none => []

/-- The predicate contributed by the `year_range` dimension (one filter
call carrying both bounds of the closed interval). -/
def preds_yrange (f : FilterSet) : List (Vehicle → Bool) :=
  match f.year_range with
  | some ab => [fun v => decide (ab.1 ≤ v.year) && decide (v.year ≤ ab.2)]
  | none => []

/-- The predicate contributed by the `doors` dimension (exact match). -/
def preds_doors (f : FilterSet) : List (Vehicle → Bool) :=
  match f.doors with
  | some d => if d == 0 then [] else [fun v => v.doors == d]
  | none => []

/-- All predicates of a FilterSet, in the source's application order. -/
def predList (f : FilterSet) : List (Vehicle → Bool) :=
  preds_body f ++ preds_trans f ++ preds_fuel f ++ preds_price f ++
  preds_ymin f ++ preds_yrange f ++ preds_doors f

/-- Successive application of a list of filter predicates, as chained
`qs.filter(...)` calls apply them. -/
def applyPreds (ps : List (Vehicle → Bool)) (l : List Vehicle) : List Vehicle :=
  ps.foldl (fun acc p => acc.filter p) l

/-- Stable insertion (descending by `key`) of `x` into `l`: `x` goes
before the first element whose key is not larger, so among equal keys an
earlier-inserted element stays first. -/
def insDescBy {α : Type} (key : α → Nat) (x : α) : List α → List α
  | [] => [x]
  | y :: ys => if key y ≤ key x then x :: y :: ys else y :: insDescBy key x ys

/-- Stable descending sort by `key` (insertion sort; models Python's
stable `sorted` with a descending key, and the model of SQL ordering on
ties). -/
def sortDescBy {α : Type} (key : α → Nat) : List α → List α
  | [] => []
  | x :: xs => insDescBy key x (sortDescBy key xs)

/-- `order_by("-created_at")`: newest creation time first. -/
def order_by_created_desc (l : List Vehicle) : List Vehicle :=
  sortDescBy (fun v => v.created_at) l

/-- Serialized record shape produced by `vehicle_to_dict` (field order
as in the source dict; `float(v.price)` is the exact cents value over
100). -/
structure VehicleDict where
  brand : String
  model : String
  year : Nat
  engine : String
  fuel_type : String
  color : String
  mileage_km : Nat
  doors : Nat
  transmission : String
  body_type : String
  price : ℚ
  vin : String
deriving Repr, DecidableEq

/-- Embeds `vehicle_to_dict`. -/
def vehicle_to_dict (v : Vehicle) : VehicleDict :=
  { brand := v.brand, model := v.model, year := v.year, engine := v.engine,
    fuel_type := v.fuel_type, color := v.color, mileage_km := v.mileage_km,
    doors := v.doors, transmission := v.transmission, body_type := v.body_type,
    price := ratOfCents v.price_cents, vin := v.vin }

/-- Insert thousands separators into a most-significant-first digit
list, working on its reverse. -/
def commify3 : List Char → List Char
  | a :: b :: c :: d :: rest => a :: b :: c :: ',' :: commify3 (d :: rest)
  | l => l

/-- Python's format `f"(i):,.0f"` for an integer-valued amount. -/
def fmtCommaInt (i : Int) : List Char :=
  (if i < 0 then ['-'] else []) ++ ((commify3 (toString i.natAbs).toList.reverse).reverse)

/-- `str.replace(pat, "")`: remove every occurrence of `pat`, scanning
left to right and continuing after each removed occurrence.  The fuel
argument bounds the recursion; `l.length` steps always suffice. -/
def removeOccsGo (pat : List Char) : Nat → List Char → List Char
  | _, [] => []
  | 0, l => l
  | fuel + 1, c :: cs =>
    if pat.isPrefixOf (c :: cs) then removeOccsGo pat fuel ((c :: cs).drop pat.length)
    else c :: removeOccsGo pat fuel cs

/-- `str.replace(pat, "")`. -/
def removeOccs (pat l : List Char) : List Char :=
  removeOccsGo pat l.length l

/-- Embeds `_price_band`: fixed 20,000-wide buckets with the label
built by the source's replace chain (`","→"."`, then `"."→","`, then
`",00"→""`).  `float(price)` of a `Decimal` never raises, so the
`"Indefinido"` fallback is unreachable; `math.floor` of the exact
quotient is the rational floor. -/
def price_band (cents : Int) : String :=
  let bucket : Int := Int.fdiv cents 2000000
  let low : Int := bucket * 20000
  let high : Int := (bucket + 1) * 20000 - 1
  let s := "R$ ".toList ++ fmtCommaInt low ++ " - R$ ".toList ++ fmtCommaInt high
  let s1 := s.map (fun c => if c == ',' then '.' else c)
  let s2 := s1.map (fun c => if c == '.' then ',' else c)
  String.mk (removeOccs [',', '0', '0'] s2)

/-- One step of Python dict counting (`d[k] = d.get(k, 0) + 1`): a dict
preserves insertion order, so a new key is appended at the end. -/
def bump (b : String) : List (String × Nat) → List (String × Nat)
  | [] => [(b, 1)]
  | (k, c) :: rest => if k == b then (k, c + 1) :: rest else (k, c) :: bump b rest

/-- Group-by-with-count in first-encounter order (models
`values(dim).annotate(c=Count("id"))`; SQL leaves the group order
unspecified, the model fixes first-encounter order — no claim depends
on it). -/
def countsBy {α : Type} (keyOf : α → String) (l : List α) : List (String × Nat) :=
  l.foldl (fun acc v => bump (keyOf v) acc) []

/-- `r["…"] or "Indefinido"`: an empty category label is replaced. -/
def orIndef (s : String) : String :=
  if s.isEmpty then "Indefinido" else s

/-- The summary shape built by `summarize_queryset`. -/
structure AggregateSummary where
  total : Nat
  by_body : List (String × Nat)
  by_fuel : List (String × Nat)
  year_span_min : Nat
  year_span_max : Nat
  top_price_bands : List (String × Nat)
deriving Repr, DecidableEq

/-- The price sample used for band aggregation: the first 300 prices of
the (already ordered) result set (`qs.values("price")[:300]`). -/
def priceSample (qs : List Vehicle) : List Int :=
  (qs.map (fun v => v.price_cents)).take 300

/-- The band-label counts of the sample, in first-encounter order. -/
def bandCounts (qs : List Vehicle) : List (String × Nat) :=
  (priceSample qs).foldl (fun acc p => bump (price_band p) acc) []

/-- Embeds `summarize_queryset`: exact total and group-bys over the full
result set, price bands over the 300-record prefix sample, sorted by
count descending (`sorted(..., key=lambda x: -x[1])` is stable, keeping
ties in encounter order) and capped at 10. -/
def summarize_queryset (qs : List Vehicle) : AggregateSummary :=
  { total := qs.length
    by_body := (sortDescBy Prod.snd (countsBy (fun v => v.body_type) qs)).map
      (fun p => (orIndef p.1, p.2))
    by_fuel := (sortDescBy Prod.snd (countsBy (fun v => v.fuel_type) qs)).map
      (fun p => (orIndef p.1, p.2))
    year_span_min := match qs.map (fun v => v.year) with
      | [] => 0
      | y :: ys => ys.foldl Nat.min y
    year_span_max := match qs.map (fun v => v.year) with
      | [] => 0
      | y :: ys => ys.foldl Nat.max y
    top_price_bands := (sortDescBy Prod.snd (bandCounts qs)).take 10 }

/-- Python's `f"(price):.2f"` on a two-decimal `Decimal`. -/
def fmt_money_2f (cents : Int) : String :=
  (if cents < 0 then "-" else "") ++ toString (cents.natAbs / 100) ++ "." ++
  (if cents.natAbs % 100 < 10 then "0" else "") ++ toString (cents.natAbs % 100)

/-- One example line of the fallback reply. -/
def fallbackLine (v : Vehicle) : String :=
  "- " ++ v.brand ++ " " ++ v.model ++ " " ++ toString v.year ++ " (" ++ v.body_type ++ ", " ++
  v.transmission ++ ", " ++ v.fuel_type ++ ") — R$ " ++ fmt_money_2f v.price_cents ++ ", " ++
  toString v.mileage_km ++ " km"

/-- The fixed apology of the empty branch of `fallback_reply`. -/
def apologyText : String :=
  "Não encontrei opções exatamente como você pediu. Posso sugerir alternativas próximas (ano/preço/categoria)?"

/-- The fixed closing suggestion line of `fallback_reply`. -/
def closingText : String :=
  "Se quiser, posso filtrar por ano mínimo, teto de preço ou tipo de combustível."

/-- Embeds `fallback_reply`: deterministic reply from the catalogue
alone.  The `user_msg` argument is accepted and ignored, exactly as in
the source. -/
def fallback_reply (_user_msg : String) (qs : List Vehicle) (limit : Nat) : String :=
  let total := qs.length
  if total == 0 then apologyText
  else
    String.intercalate "\n"
      (["Encontrei " ++ toString total ++ " opções no nosso estoque para o que você descreveu.",
        "Algumas sugestões iniciais:"]
       ++ ((order_by_created_desc qs).take limit).map fallbackLine
       ++ [closingText])

/-- Python truthiness of an optional string (`None` and `""` are falsy). -/
def truthyOptS : Option String → Bool
  | some s => !s.isEmpty
  | none => false

/-- Python truthiness of an optional integer (`None` and `0` are falsy). -/
def truthyOptN : Option Nat → Bool
  | some n => n != 0
  | none => false

/-- Embeds `build_suggestions`. -/
def build_suggestions (filters : FilterSet) (qs_total : Nat) : List String :=
  let s : List String := []
  let s := if qs_total > 40 then
      s ++ ["Filtrar por ano mínimo (ex.: a partir de 2020)",
            "Definir um teto de preço (ex.: até R$ 120.000)",
            "Escolher transmissão (Manual/Automática/CVT)"]
    else s
  let s := if !truthyOptS filters.body_type then
      s ++ ["Mostrar apenas SUVs", "Ver Hatch até R$ 80.000"]
    else s
  let s := if !truthyOptS filters.fuel then
      s ++ ["Apenas Flex", "Diesel para uso rodoviário"]
    else s
  let s := if !truthyOptN filters.doors then s ++ ["Quero 4 portas"] else s
  s.take 6

/-- The failure categories of the external text-generation call:
`RateLimitError`, `APIError`, `APIConnectionError`,
`AuthenticationError`, and the catch-all `Exception` of the source's
`except` clause. -/
inductive LLMError where
  | rateLimit
  | apiErr
  | apiConn
  | auth
  | unexpected
deriving Repr, DecidableEq

/-- Outcome of one call to the text-generation collaborator: returned
content (`completion.choices[0].message.content`, possibly `None`) or a
raised error. -/
inductive LLMOutcome where
  | ok (content : Option String)
  | err (e : LLMError)
deriving Repr, DecidableEq

/-- `content or ""`. -/
def pyOrEmptyStr : Option String → String
  | some s => s
  | none => ""

/-- The effective result set of a request: the translated query ordered
by recency and, when it is empty, the full store ordered by recency
instead (lines 477-484 of the view). -/
def effective_qs (store : List Vehicle) (user_msg : String) : List Vehicle :=
  let qs := order_by_created_desc (query_from_filters (parse_filters user_msg) store)
  if qs.length == 0 then order_by_created_desc store else qs

/-- The JSON payload of the chat view's POST branch. -/
structure ChatResponse where
  reply : String
  suggestions : List String
  items : List VehicleDict
  total_matches : Nat
  filters_applied : FilterSet
  status : Nat
deriving Repr, DecidableEq

/-- Embeds the POST branch of `vehicle_chat_view` after payload
validation.  The collaborator is the oracle `llm : Nat → LLMOutcome`
(the sequence of outcomes successive calls would produce; the code
performs exactly one call, consuming `llm 0`).  The conversation history
and the built catalogue context only shape the prompt handed to the
collaborator and are absorbed into the oracle; `openaiImported`,
`apiKeySet` and `initOk` model the import guard, `OPENAI_API_KEY` and
the `OpenAI(...)` constructor.  After relaxation the view recounts
(`total_matches = qs.count()`), so `total_matches` always equals the
length of the effective result set. -/
def vehicle_chat_post (store : List Vehicle) (user_msg : String)
    (openaiImported apiKeySet initOk : Bool) (llm : Nat → LLMOutcome) : ChatResponse :=
  let filters := parse_filters user_msg
  let qs := effective_qs store user_msg
  let total_matches := qs.length
  let candidates := qs.take 12345678
  let items := candidates.map vehicle_to_dict
  let clientOk := openaiImported && apiKeySet && initOk
  let reply := if clientOk then
      match llm 0 with
      | .ok content => pyOrEmptyStr content
      | .err _ => fallback_reply user_msg qs 5
    else fallback_reply user_msg qs 5
  { reply := reply
    suggestions := build_suggestions filters total_matches
    items := items
    total_matches := total_matches
    filters_applied := filters
    status := 200 }

/-- A concrete sedan record used to evaluate the theorems on explicit
inputs. -/
def vSedan : Vehicle :=
  { brand := "Fiat", model := "Cronos", year := 2020, engine := "1.3",
    fuel_type := "flex", color := "Prata", mileage_km := 42000, doors := 4,
    transmission := "Manual", body_type := "Sedan", price_cents := 7000000,
    vin := "VIN010", created_at := 5 }

/-- A collaborator oracle that always answers. -/
def llmOk : Nat → LLMOutcome := fun _ => .ok (some "ok")

/-- A collaborator oracle that always raises a rate-limit error. -/
def llmErr : Nat → LLMOutcome := fun _ => .err .rateLimit

/-- A collaborator oracle that raises on the first call only. -/
def llmErrFirst : Nat → LLMOutcome :=
  fun n => if n == 0 then .err .rateLimit else .ok none

/-- A concrete FilterSet with two set dimensions. -/
def fSUV4 : FilterSet :=
  { body_type := some "SUV", transmission := none, fuel := none,
    price_max := none, year_min := none, year_range := none, doors := some 4 }

/-- A concrete FilterSet whose price ceiling is the (falsy) zero. -/
def fZero : FilterSet :=
  { body_type := none, transmission := none, fuel := none,
    price_max := some 0, year_min := none, year_range := none, doors := none }

/-! ### Lemmas about the stable descending sort -/

theorem insDescBy_perm {α : Type} (key : α → Nat) (x : α) (l : List α) :
    (insDescBy key x l).Perm (x :: l) := by
  induction l with
  | nil => exact List.Perm.refl _
  | cons y ys ih =>
    simp only [insDescBy]
    split
    · exact List.Perm.refl _
    · exact (ih.cons y).trans (List.Perm.swap x y ys)

theorem sortDescBy_perm {α : Type} (key : α → Nat) (l : List α) :
    (sortDescBy key l).Perm l := by
  induction l with
  | nil => exact List.Perm.refl _
  | cons x xs ih =>
    simp only [sortDescBy]
    exact (insDescBy_perm key x (sortDescBy key xs)).trans (ih.cons x)

theorem sortDescBy_length {α : Type} (key : α → Nat) (l : List α) :
    (sortDescBy key l).length = l.length :=
  (sortDescBy_perm key l).length_eq

theorem insDescBy_pairwise {α : Type} (key : α → Nat) (x : α) (l : List α)
    (h : l.Pairwise (fun a b => key b ≤ key a)) :
    (insDescBy key x l).Pairwise (fun a b => key b ≤ key a) := by
  induction l with
  | nil => simp [insDescBy]
  | cons y ys ih =>
    rw [List.pairwise_cons] at h
    simp only [insDescBy]
    split
    · rename_i hyx
      refine List.pairwise_cons.mpr ⟨?_, List.pairwise_cons.mpr h⟩
      intro b hb
      rcases List.mem_cons.mp hb with rfl | hb
      · exact hyx
      · exact le_trans (h.1 b hb) hyx
    · rename_i hyx
      refine List.pairwise_cons.mpr ⟨?_, ih h.2⟩
      intro b hb
      have hmem := (insDescBy_perm key x ys).mem_iff.mp hb
      rcases List.mem_cons.mp hmem with rfl | hb'
      · exact le_of_lt (lt_of_not_le hyx)
      · exact h.1 b hb'

theorem sortDescBy_pairwise {α : Type} (key : α → Nat) (l : List α) :
    (sortDescBy key l).Pairwise (fun a b => key b ≤ key a) := by
  induction l with
  | nil => simp [sortDescBy]
  | cons x xs ih =>
    simp only [sortDescBy]
    exact insDescBy_pairwise key x _ ih

theorem insDescBy_filter_eq {α : Type} (key : α → Nat) (c : Nat) (x : α) (l : List α) :
    (insDescBy key x l).filter (fun a => key a == c) =
      (if key x == c then [x] else []) ++ l.filter (fun a => key a == c) := by
  induction l with
  | nil => cases hx : (key x == c) <;> simp [insDescBy, List.filter, hx]
  | cons y ys ih =>
    simp only [insDescBy]
    split
    · rename_i hyx
      cases hx : (key x == c) <;> simp [List.filter_cons, hx]
    · rename_i hyx
      rw [List.filter_cons, ih]
      by_cases hx : key x = c
      · have hxb : (key x == c) = true := beq_iff_eq.mpr hx
        have hlt : key x < key y := lt_of_not_le hyx
        have hyb : (key y == c) = false := by
          refine beq_eq_false_iff_ne.mpr ?_
          omega
        rw [List.filter_cons]
        simp [hxb, hyb]
      · have hxb : (key x == c) = false := beq_eq_false_iff_ne.mpr hx
        rw [List.filter_cons]
        cases hy : (key y == c) <;> simp [hxb, hy]

theorem sortDescBy_stable {α : Type} (key : α → Nat) (c : Nat) (l : List α) :
    (sortDescBy key l).filter (fun a => key a == c) = l.filter (fun a => key a == c) := by
  induction l with
  | nil => rfl
  | cons x xs ih =>
    simp only [sortDescBy]
    rw [insDescBy_filter_eq, ih, List.filter_cons]
    cases hx : (key x == c) <;> simp [hx]

/-! ### Lemmas about dict counting and sample sums -/

theorem bump_snd_sum (b : String) (acc : List (String × Nat)) :
    ((bump b acc).map Prod.snd).sum = (acc.map Prod.snd).sum + 1 := by
  induction acc with
  | nil => simp [bump]
  | cons p rest ih =>
    obtain ⟨k, cnt⟩ := p
    simp only [bump]
    split
    · simp only [List.map_cons, List.sum_cons]
      omega
    · simp only [List.map_cons, List.sum_cons, ih]
      omega

theorem foldl_bump_sum {β : Type} (f : β → String) (sample : List β)
    (acc : List (String × Nat)) :
    ((sample.foldl (fun a p => bump (f p) a) acc).map Prod.snd).sum
      = (acc.map Prod.snd).sum + sample.length := by
  induction sample generalizing acc with
  | nil => simp
  | cons p ps ih =>
    rw [List.foldl_cons, ih, bump_snd_sum]
    simp only [List.length_cons]
    omega

theorem sum_take_le (l : List Nat) (n : Nat) : (l.take n).sum ≤ l.sum := by
  conv_rhs => rw [← List.take_append_drop n l]
  rw [List.sum_append]
  omega

/-! ### Lemmas about the doors search -/

theorem occursI_of_prefixIB (pat s : List Char) (h : prefixIB pat s = true) :
    occursI pat s = true := by
  cases s <;> simp [occursI, h]

theorem occursI_suffix (pat s l : List Char) (hs : List.IsSuffix s l)
    (h : occursI pat s = true) : occursI pat l = true := by
  obtain ⟨t, ht⟩ := hs
  subst ht
  induction t with
  | nil => simpa using h
  | cons c ts ih => simp [occursI, ih]

theorem doorsAt_sound (prev : Option Char) (l : List Char) (d : Nat)
    (h : doorsAt prev l = some d) :
    (d = 2 ∨ d = 4 ∨ d = 5) ∧ occursI ['p', 'o', 'r', 't', 'a', 's'] l = true := by
  cases l with
  | nil => simp [doorsAt] at h
  | cons c rest =>
    simp only [doorsAt] at h
    split at h
    · rename_i hcond
      injection h with hd
      simp only [Bool.and_eq_true, Bool.or_eq_true, beq_iff_eq] at hcond
      obtain ⟨⟨⟨hc, _⟩, _⟩, hport⟩ := hcond
      constructor
      · rcases hc with (rfl | rfl) | rfl <;> simp [← hd]
      · have h1 : occursI ['p', 'o', 'r', 't', 'a', 's'] (rest.dropWhile isSpacePy) = true :=
          occursI_of_prefixIB _ _ hport
        have h2 := occursI_suffix _ _ rest (List.dropWhile_suffix isSpacePy) h1
        exact occursI_suffix _ rest (c :: rest) (List.suffix_cons c rest) h2
    · exact absurd h (by simp)

theorem searchDoors_sound (l : List Char) (prev : Option Char) (d : Nat)
    (h : searchDoors prev l = some d) :
    (d = 2 ∨ d = 4 ∨ d = 5) ∧ occursI ['p', 'o', 'r', 't', 'a', 's'] l = true := by
  induction l generalizing prev with
  | nil => simp [searchDoors] at h
  | cons c t ih =>
    rw [searchDoors] at h
    cases hAt : doorsAt prev (c :: t) with
    | some d0 =>
      rw [hAt] at h
      injection h with h0
      subst h0
      exact doorsAt_sound prev (c :: t) d0 hAt
    | none =>
      rw [hAt] at h
      obtain ⟨hset, hocc⟩ := ih (some c) h
      exact ⟨hset, occursI_suffix _ t (c :: t) (List.suffix_cons c t) hocc⟩

/-! ### Lemmas about the query translator -/

theorem applyPreds_append (ps qs : List (Vehicle → Bool)) (l : List Vehicle) :
    applyPreds (ps ++ qs) l = applyPreds qs (applyPreds ps l) := by
  simp [applyPreds, List.foldl_append]

theorem applyPreds_eq_filter (ps : List (Vehicle → Bool)) (l : List Vehicle) :
    applyPreds ps l = l.filter (fun v => ps.all (fun p => p v)) := by
  induction ps generalizing l with
  | nil => simp [applyPreds]
  | cons p ps ih =>
    show applyPreds ps (l.filter p) = _
    rw [ih, List.filter_filter]
    refine List.filter_congr ?_
    intro v _
    simp [List.all_cons, Bool.and_comm]

theorem all_eq_of_perm {ps qs : List (Vehicle → Bool)} (h : ps.Perm qs) (v : Vehicle) :
    ps.all (fun p => p v) = qs.all (fun p => p v) := by
  induction h with
  | nil => rfl
  | cons x _ ih => simp [List.all_cons, ih]
  | swap x y l => simp [List.all_cons, ← Bool.and_assoc, Bool.and_comm]
  | trans _ _ ih1 ih2 => rw [ih1, ih2]

theorem applyPreds_of_perm (ps qs : List (Vehicle → Bool)) (h : ps.Perm qs)
    (l : List Vehicle) : applyPreds ps l = applyPreds qs l := by
  rw [applyPreds_eq_filter, applyPreds_eq_filter]
  exact List.filter_congr (fun v _ => all_eq_of_perm h v)

theorem applyPreds_preds_body (f : FilterSet) (l : List Vehicle) :
    applyPreds (preds_body f) l = step_body f l := by
  cases h : f.body_type with
  | none => simp [preds_body, step_body, h, applyPreds]
  | some s => by_cases hs : s.isEmpty <;> simp [preds_body, step_body, h, hs, applyPreds]

theorem applyPreds_preds_trans (f : FilterSet) (l : List Vehicle) :
    applyPreds (preds_trans f) l = step_trans f l := by
  cases h : f.transmission with
  | none => simp [preds_trans, step_trans, h, applyPreds]
  | some s => by_cases hs : s.isEmpty <;> simp [preds_trans, step_trans, h, hs, applyPreds]

theorem applyPreds_preds_fuel (f : FilterSet) (l : List Vehicle) :
    applyPreds (preds_fuel f) l = step_fuel f l := by
  cases h : f.fuel with
  | none => simp [preds_fuel, step_fuel, h, applyPreds]
  | some s => by_cases hs : s.isEmpty <;> simp [preds_fuel, step_fuel, h, hs, applyPreds]

theorem applyPreds_preds_price (f : FilterSet) (l : List Vehicle) :
    applyPreds (preds_price f) l = step_price f l := by
  cases h : f.price_max with
  | none => simp [preds_price, step_price, h, applyPreds]
  | some p => by_cases hp : p == 0 <;> simp [preds_price, step_price, h, hp, applyPreds]

theorem applyPreds_preds_ymin (f : FilterSet) (l : List Vehicle) :
    applyPreds (preds_ymin f) l = step_ymin f l := by
  cases h : f.year_min with
  | none => simp [preds_ymin, step_ymin, h, applyPreds]
  | some y => by_cases hy : y == 0 <;> simp [preds_ymin, step_ymin, h, hy, applyPreds]

theorem applyPreds_preds_yrange (f : FilterSet) (l : List Vehicle) :
    applyPreds (preds_yrange f) l = step_yrange f l := by
  cases h : f.year_range with
  | none => simp [preds_yrange, step_yrange, h, applyPreds]
  | some ab => simp [preds_yrange, step_yrange, h, applyPreds]

theorem applyPreds_preds_doors (f : FilterSet) (l : List Vehicle) :
    applyPreds (preds_doors f) l = step_doors f l := by
  cases h : f.doors with
  | none => simp [preds_doors, step_doors, h, applyPreds]
  | some d => by_cases hd : d == 0 <;> simp [preds_doors, step_doors, h, hd, applyPreds]

theorem query_eq_applyPreds (f : FilterSet) (l : List Vehicle) :
    query_from_filters f l = applyPreds (predList f) l := by
  simp only [predList, applyPreds_append, applyPreds_preds_body, applyPreds_preds_trans,
    applyPreds_preds_fuel, applyPreds_preds_price, applyPreds_preds_ymin,
    applyPreds_preds_yrange, applyPreds_preds_doors, query_from_filters]

/-! ### Lemmas about the money parser -/

theorem pt_money_shape (txt : List Char) (v : ℚ) (h : pt_money_to_decimal txt = some v) :
    ∃ n : Nat, v = (if n < 1000 then ((n * 1000 : Nat) : ℚ) else (n : ℚ)) := by
  simp only [pt_money_to_decimal] at h
  cases hs : searchPriceNum (stripChars txt) with
  | none => rw [hs] at h; exact absurd h (by simp)
  | some m =>
    rw [hs] at h
    injection h with hv
    exact ⟨_, hv.symm⟩

theorem pt_money_nonneg (txt : List Char) (v : ℚ) (h : pt_money_to_decimal txt = some v) :
    0 ≤ v := by
  obtain ⟨n, rfl⟩ := pt_money_shape txt v h
  split
  · positivity
  · positivity

theorem price_step_pos (norm : List Char) (v : ℚ) (h : price_step norm = some v) :
    0 < v := by
  unfold price_step at h
  cases h1 : searchPricePT norm with
  | some g =>
    simp only [h1] at h
    cases h2 : pt_money_to_decimal g with
    | none => simp [h2] at h
    | some v0 =>
      simp only [h2] at h
      split at h
      · exact absurd h (by simp)
      · rename_i hne
        injection h with hv
        subst hv
        have h0 : v0 ≠ 0 := by simpa using hne
        exact lt_of_le_of_ne (pt_money_nonneg g v0 h2) (Ne.symm h0)
  | none =>
    simp only [h1] at h
    cases hocc : occursE ['m', 'i', 'l'] norm with
    | false => simp [hocc] at h
    | true =>
      simp only [hocc, if_true] at h
      cases h3 : searchPriceNum norm with
      | none => simp [h3] at h
      | some m =>
        simp only [h3] at h
        cases h4 : pt_money_to_decimal m.2 with
        | none => simp [h4] at h
        | some v0 =>
          simp only [h4] at h
          split at h
          · exact absurd h (by simp)
          · rename_i hne
            injection h with hv
            subst hv
            have h0 : v0 ≠ 0 := by simpa using hne
            exact lt_of_le_of_ne (pt_money_nonneg m.2 v0 h4) (Ne.symm h0)

/-! ### The claims -/

/-- C1 (counterexample): the claim says that after relaxation
`total_matches` reports 0, the pre-relaxation count.  On the store
`[vSedan]` and the message `"suv"` the extracted FilterSet matches zero
records, yet the view reports `total_matches = 1`: line 484 of the view
recomputes `total_matches = qs.count()` after swapping in the full
store, so the pre-relaxation zero is lost. -/
theorem c1_total_matches_counterexample :
    [vSedan] ≠ ([] : List Vehicle)
    ∧ query_from_filters (parse_filters "suv") [vSedan] = []
    ∧ (vehicle_chat_post [vSedan] "suv" false false false llmOk).total_matches = 1
    ∧ (vehicle_chat_post [vSedan] "suv" false false false llmOk).total_matches ≠ 0 := by
  refine ⟨by decide, by decide, by decide, by decide⟩

/-- C1 (amended): for every non-empty store and request whose extracted
FilterSet matches zero records, the effective result set (items) is the
full unfiltered store ordered by newest creation time first (truncated
to the first 12,345,678 records, the literal slice bound of the view),
while `total_matches` reports the post-relaxation count, i.e. the full
store size — not 0. -/
theorem c1_relaxation_amended (store : List Vehicle) (msg : String)
    (b1 b2 b3 : Bool) (llm : Nat → LLMOutcome)
    (_hne : store ≠ [])
    (hzero : query_from_filters (parse_filters msg) store = []) :
    (vehicle_chat_post store msg b1 b2 b3 llm).items
        = ((order_by_created_desc store).take 12345678).map vehicle_to_dict
    ∧ (vehicle_chat_post store msg b1 b2 b3 llm).total_matches = store.length
    ∧ (store.length ≤ 12345678 →
        (vehicle_chat_post store msg b1 b2 b3 llm).items
          = (order_by_created_desc store).map vehicle_to_dict) := by
  have heff : effective_qs store msg = order_by_created_desc store := by
    simp [effective_qs, hzero, order_by_created_desc, sortDescBy]
  have hlen : (order_by_created_desc store).length = store.length :=
    sortDescBy_length _ store
  refine ⟨?_, ?_, ?_⟩
  · simp [vehicle_chat_post, heff]
  · simp [vehicle_chat_post, heff, hlen]
  · intro hle
    have htake : (order_by_created_desc store).take 12345678 = order_by_created_desc store :=
      List.take_of_length_le (by rw [hlen]; exact hle)
    simp [vehicle_chat_post, heff, htake]

/-- C1 (amended, witness): the amended statement evaluated on the
one-sedan store and the zero-match message `"suv"`. -/
theorem c1_relaxation_amended_witness :
    (vehicle_chat_post [vSedan] "suv" false false false llmOk).items
        = ((order_by_created_desc [vSedan]).take 12345678).map vehicle_to_dict
    ∧ (vehicle_chat_post [vSedan] "suv" false false false llmOk).total_matches
        = [vSedan].length
    ∧ ([vSedan].length ≤ 12345678 →
        (vehicle_chat_post [vSedan] "suv" false false false llmOk).items
          = (order_by_created_desc [vSedan]).map vehicle_to_dict) :=
  c1_relaxation_amended [vSedan] "suv" false false false llmOk (by decide) (by decide)

/-- C2: for every input string the filter extractor terminates (it is a
total Lean function) and returns the fixed-shape dict whose key list is
exactly the seven filter dimensions, unset dimensions carrying the
`null` marker by construction of the `Option`-valued fields. -/
theorem c2_extractor_total_fixed_keys :
    ∀ s : String, ((filter_set_dict (parse_filters s)).map Prod.fst)
      = ["body_type", "transmission", "fuel", "price_max", "year_min", "year_range", "doors"] :=
  fun _ => rfl

/-- C3: the `no máximo` trigger of `PRICE_PT_RE` can never fire: the
pattern keeps the accented `á` while the searched text has been
accent-stripped by `_normalize`.  `"no máximo R$ 95.000"` therefore
leaves `price_max` unset, although the analogous `"até R$ 95.000"` sets
it; `"no máximo 80 mil"` is only rescued by the separate `"mil"`
fallback. -/
theorem c3_no_maximo_dead :
    (parse_filters "no máximo R$ 95.000").price_max = none
    ∧ (parse_filters "até R$ 95.000").price_max = some 95000
    ∧ (parse_filters "no máximo 80 mil").price_max = some 80000 := by
  refine ⟨by decide, by decide, by decide⟩

/-- C4: the price heuristic multiplies a parsed value below 1000 by
1000 and keeps values at or above 1000 literal, so `"até 120 mil"` and
`"até 120.000"` both extract `price_max = 120000.00`. -/
theorem c4_price_heuristic :
    (parse_filters "até 120 mil").price_max = some 120000
    ∧ (parse_filters "até 120.000").price_max = some 120000
    ∧ (∀ txt : List Char, ∀ v : ℚ, pt_money_to_decimal txt = some v →
        ∃ n : Nat, v = (if n < 1000 then ((n * 1000 : Nat) : ℚ) else (n : ℚ))) := by
  refine ⟨by decide, by decide, ?_⟩
  intro txt v h
  exact pt_money_shape txt v h

/-- C4 (witness): the heuristic clause evaluated on the concrete parse
of `"120 mil"`. -/
theorem c4_price_heuristic_witness :
    ∃ n : Nat, (120000 : ℚ) = (if n < 1000 then ((n * 1000 : Nat) : ℚ) else (n : ℚ)) :=
  c4_price_heuristic.2.2 "120 mil".toList 120000 (by decide)

/-- C5: door extraction needs a standalone digit of `(2,4,5)` adjacent
(up to whitespace) to the word `portas`: `"4 portas"` yields
`doors = 4`, `"ano 2004"` leaves doors unset, and whenever doors is set
the digit is one of 2, 4, 5 and `portas` occurs in the normalized
message. -/
theorem c5_doors_adjacency :
    (parse_filters "4 portas").doors = some 4
    ∧ (parse_filters "ano 2004").doors = none
    ∧ (∀ s : String, ∀ d : Nat, (parse_filters s).doors = some d →
        (d = 2 ∨ d = 4 ∨ d = 5)
        ∧ occursI ['p', 'o', 'r', 't', 'a', 's'] (normalize s.toList) = true) := by
  refine ⟨by decide, by decide, ?_⟩
  intro s d h
  have h' : searchDoors none (normalize s.toList) = some d := h
  exact searchDoors_sound (normalize s.toList) none d h'

/-- C5 (witness): the universal clause evaluated at `"4 portas"`. -/
theorem c5_doors_adjacency_witness :
    ((4 : Nat) = 2 ∨ (4 : Nat) = 4 ∨ (4 : Nat) = 5)
    ∧ occursI ['p', 'o', 'r', 't', 'a', 's'] (normalize "4 portas".toList) = true :=
  c5_doors_adjacency.2.2 "4 portas" 4 (by decide)

/-- C6: the query translator is the conjunction of the per-dimension
predicates (its result is one filter by the conjunction of `predList`),
and applying the set predicates in any permutation yields the same
result set. -/
theorem c6_conjunction_order_free (f : FilterSet) (l : List Vehicle) :
    query_from_filters f l = l.filter (fun v => (predList f).all (fun p => p v))
    ∧ (∀ ps : List (Vehicle → Bool), ps.Perm (predList f) →
        applyPreds ps l = query_from_filters f l) := by
  constructor
  · rw [query_eq_applyPreds, applyPreds_eq_filter]
  · intro ps h
    rw [query_eq_applyPreds]
    exact applyPreds_of_perm ps (predList f) h l

/-- C6 (witness): the permutation clause evaluated on a two-predicate
FilterSet with the reversed predicate order. -/
theorem c6_conjunction_order_free_witness :
    applyPreds (predList fSUV4).reverse [vSedan] = query_from_filters fSUV4 [vSedan] :=
  (c6_conjunction_order_free fSUV4 [vSedan]).2 (predList fSUV4).reverse
    (List.reverse_perm (predList fSUV4))

/-- C7: the summarizer reports the exact count of the full result set
as `total`, its top price-band counts sum to at most 300 (the prefix
sample cap), and `top_price_bands` has at most 10 entries, sorted by
count descending by a stable sort that keeps ties in first-encounter
order (the filter-by-count formulation of stability). -/
theorem c7_summarizer (qs : List Vehicle) :
    (summarize_queryset qs).total = qs.length
    ∧ (((summarize_queryset qs).top_price_bands).map Prod.snd).sum ≤ 300
    ∧ ((summarize_queryset qs).top_price_bands).length ≤ 10
    ∧ ((summarize_queryset qs).top_price_bands).Pairwise (fun a b => b.2 ≤ a.2)
    ∧ (summarize_queryset qs).top_price_bands
        = (sortDescBy Prod.snd (bandCounts qs)).take 10
    ∧ (∀ c : Nat, (sortDescBy Prod.snd (bandCounts qs)).filter (fun a => a.2 == c)
        = (bandCounts qs).filter (fun a => a.2 == c)) := by
  refine ⟨rfl, ?_, ?_, ?_, rfl, ?_⟩
  · have h1 : ((sortDescBy Prod.snd (bandCounts qs)).map Prod.snd).sum
        = ((bandCounts qs).map Prod.snd).sum :=
      ((sortDescBy_perm Prod.snd (bandCounts qs)).map Prod.snd).sum_eq
    have h2 : ((bandCounts qs).map Prod.snd).sum = (priceSample qs).length := by
      have h := foldl_bump_sum price_band (priceSample qs) []
      simpa [bandCounts] using h
    have h3 : (priceSample qs).length ≤ 300 := by
      simp only [priceSample, List.length_take]
      exact Nat.min_le_left _ _
    calc (((summarize_queryset qs).top_price_bands).map Prod.snd).sum
        = (((sortDescBy Prod.snd (bandCounts qs)).map Prod.snd).take 10).sum := by
          simp [summarize_queryset, List.map_take]
      _ ≤ ((sortDescBy Prod.snd (bandCounts qs)).map Prod.snd).sum := sum_take_le _ _
      _ = ((bandCounts qs).map Prod.snd).sum := h1
      _ = (priceSample qs).length := h2
      _ ≤ 300 := h3
  · have h : ((summarize_queryset qs).top_price_bands).length
        = min 10 (sortDescBy Prod.snd (bandCounts qs)).length := by
      simp [summarize_queryset, List.length_take]
    omega
  · exact (sortDescBy_pairwise Prod.snd (bandCounts qs)).sublist (List.take_sublist 10 _)
  · exact fun c => sortDescBy_stable Prod.snd c (bandCounts qs)

/-- C8: on every failure category of the text-generation call, and when
the collaborator is unavailable or fails to initialize, the orchestrator
answers with the deterministic fallback text for the same (effective)
result set, with status 200 and no error surfaced; and the response
depends only on the first collaborator outcome — no retry is made. -/
theorem c8_collaborator_failure (store : List Vehicle) (msg : String)
    (b1 b2 b3 : Bool) (llm llm2 : Nat → LLMOutcome) (e : LLMError) :
    ((b1 && b2 && b3) = true → llm 0 = .err e →
        (vehicle_chat_post store msg b1 b2 b3 llm).reply
          = fallback_reply msg (effective_qs store msg) 5)
    ∧ ((b1 && b2 && b3) = false →
        (vehicle_chat_post store msg b1 b2 b3 llm).reply
          = fallback_reply msg (effective_qs store msg) 5)
    ∧ (vehicle_chat_post store msg b1 b2 b3 llm).status = 200
    ∧ (llm 0 = llm2 0 →
        vehicle_chat_post store msg b1 b2 b3 llm
          = vehicle_chat_post store msg b1 b2 b3 llm2) := by
  refine ⟨?_, ?_, ?_, ?_⟩
  · intro hc he
    simp [vehicle_chat_post, hc, he]
  · intro hc
    simp [vehicle_chat_post, hc]
  · simp [vehicle_chat_post]
  · intro h
    simp [vehicle_chat_post, h]

/-- C8 (witness): the failure, no-collaborator and single-call clauses
evaluated on concrete oracles over the one-sedan store. -/
theorem c8_collaborator_failure_witness :
    (vehicle_chat_post [vSedan] "suv" true true true llmErr).reply
        = fallback_reply "suv" (effective_qs [vSedan] "suv") 5
    ∧ (vehicle_chat_post [vSedan] "suv" false true true llmErr).reply
        = fallback_reply "suv" (effective_qs [vSedan] "suv") 5
    ∧ (vehicle_chat_post [vSedan] "suv" true true true llmErr).status = 200
    ∧ vehicle_chat_post [vSedan] "suv" true true true llmErr
        = vehicle_chat_post [vSedan] "suv" true true true llmErrFirst :=
  ⟨(c8_collaborator_failure [vSedan] "suv" true true true llmErr llmErr .rateLimit).1 rfl rfl,
   (c8_collaborator_failure [vSedan] "suv" false true true llmErr llmErr .rateLimit).2.1 rfl,
   (c8_collaborator_failure [vSedan] "suv" true true true llmErr llmErr .rateLimit).2.2.1,
   (c8_collaborator_failure [vSedan] "suv" true true true llmErr llmErrFirst .rateLimit).2.2.2 rfl⟩

/-- C9: the fallback reply ignores the user text entirely (calls
differing only in `user_text` coincide), returns the fixed apology on an
empty result set, and otherwise the count header followed by at most
`limit` example lines from the most recent records and the fixed closing
line. -/
theorem c9_fallback_deterministic (t t2 : String) (qs : List Vehicle) (limit : Nat) :
    fallback_reply t qs limit = fallback_reply t2 qs limit
    ∧ (qs = [] → fallback_reply t qs limit = apologyText)
    ∧ (qs ≠ [] →
        fallback_reply t qs limit
          = String.intercalate "\n"
              (["Encontrei " ++ toString qs.length ++
                  " opções no nosso estoque para o que você descreveu.",
                "Algumas sugestões iniciais:"]
               ++ ((order_by_created_desc qs).take limit).map fallbackLine
               ++ [closingText])
        ∧ ((order_by_created_desc qs).take limit).length ≤ limit
        ∧ (order_by_created_desc qs).Pairwise (fun a b => b.created_at ≤ a.created_at)
        ∧ (order_by_created_desc qs).Perm qs) := by
  refine ⟨rfl, ?_, ?_⟩
  · intro h
    subst h
    rfl
  · intro h
    have hlen : qs.length ≠ 0 := fun hl => h (List.length_eq_zero.mp hl)
    have hne : (qs.length == 0) = false := beq_eq_false_iff_ne.mpr hlen
    refine ⟨by simp [fallback_reply, hne], ?_, ?_, ?_⟩
    · rw [List.length_take]
      exact Nat.min_le_left _ _
    · exact sortDescBy_pairwise (fun v => v.created_at) qs
    · exact sortDescBy_perm (fun v => v.created_at) qs

/-- C9 (witness): the empty and non-empty branches evaluated on the
concrete store, with two different user texts. -/
theorem c9_fallback_deterministic_witness :
    fallback_reply "a" ([] : List Vehicle) 5 = apologyText
    ∧ fallback_reply "a" [vSedan] 5
        = String.intercalate "\n"
            (["Encontrei " ++ toString ([vSedan] : List Vehicle).length ++
                " opções no nosso estoque para o que você descreveu.",
              "Algumas sugestões iniciais:"]
             ++ ((order_by_created_desc [vSedan]).take 5).map fallbackLine
             ++ [closingText])
    ∧ ((order_by_created_desc [vSedan]).take 5).length ≤ 5 :=
  ⟨(c9_fallback_deterministic "a" "b" ([] : List Vehicle) 5).2.1 rfl,
   ((c9_fallback_deterministic "a" "b" [vSedan] 5).2.2 (by decide)).1,
   ((c9_fallback_deterministic "a" "b" [vSedan] 5).2.2 (by decide)).2.1⟩

/-- C10: whenever the extractor sets `price_max` the value is strictly
positive (the truthiness guard discards a zero parse), and the query
translator adds no price predicate when `price_max` is unset or zero. -/
theorem c10_zero_price_never_constrains :
    (∀ s : String, ∀ v : ℚ, (parse_filters s).price_max = some v → 0 < v)
    ∧ (∀ (f : FilterSet) (l : List Vehicle),
        f.price_max = none ∨ f.price_max = some 0 →
        query_from_filters f l = query_from_filters { f with price_max := none } l) := by
  constructor
  · intro s v h
    have h' : price_step (normalize s.toList) = some v := h
    exact price_step_pos (normalize s.toList) v h'
  · intro f l h
    have hskip : step_price f = fun qs => qs := by
      funext qs
      rcases h with h | h <;> simp [step_price, h]
    have hskip2 : step_price { f with price_max := none } = fun qs => qs := by
      funext qs
      simp [step_price]
    simp [query_from_filters, hskip, hskip2, step_body, step_trans, step_fuel,
      step_ymin, step_yrange, step_doors]

/-- C10 (witness): positivity at the parse of `"até 120 mil"`, and the
no-predicate clause at the zero-price FilterSet on the concrete store. -/
theorem c10_zero_price_never_constrains_witness :
    (0 : ℚ) < 120000
    ∧ query_from_filters fZero [vSedan]
        = query_from_filters { fZero with price_max := none } [vSedan] :=
  ⟨c10_zero_price_never_constrains.1 "até 120 mil" 120000 (by decide),
   c10_zero_price_never_constrains.2 fZero [vSedan] (Or.inr rfl)⟩

end C2SMotors
